import Mathlib

/-!
Shallow embedding of `egui/src/widgets/plot/items/candle_elem.rs`:
the candlestick chart element (`Candle`, `CandleElem`) together with the
external collaborator types it touches (`Stroke`, `Color32`, `Shape`,
`ScreenTransform`, the parent plot context and the highlight helper).
Floating-point numbers of the source are embedded as exact rationals.
External collaborators whose bodies live outside this file's source are
modelled from the specification, either as abstract parameters (the
highlight helper, the shared ruler-drawing routine, the formatter
callback) or as structures of abstract data (the screen transform).
-/

/-- Color with four 8-bit channels, as `epaint::Color32` (external collaborator;
only constructed and passed through here, never inspected). -/
structure Color32 where
  r : ℕ
  g : ℕ
  b : ℕ
  a : ℕ
deriving DecidableEq

/-- `Color32::TRANSPARENT`: all four channels zero. -/
def Color32.TRANSPARENT : Color32 := ⟨0, 0, 0, 0⟩

/-- Line style: width plus color, as `epaint::Stroke` (external collaborator). -/
structure Stroke where
  width : ℚ
  color : Color32
deriving DecidableEq

/-- `Stroke::new(width, color)`. -/
def Stroke.new (width : ℚ) (color : Color32) : Stroke := ⟨width, color⟩

/-- A point in data space, as `plot::PlotPoint`. -/
structure PlotPoint where
  x : ℚ
  y : ℚ
deriving DecidableEq

/-- A point in screen space, as `emath::Pos2`. -/
structure Pos2 where
  x : ℚ
  y : ℚ
deriving DecidableEq

/-- A screen-space rectangle, as `emath::Rect` (min and max corner). -/
structure Rect where
  min : Pos2
  max : Pos2
deriving DecidableEq

/-- Corner rounding radii of a rectangle shape, as `epaint::Rounding`. -/
structure Rounding where
  nw : ℚ
  ne : ℚ
  sw : ℚ
  se : ℚ
deriving DecidableEq

/-- `Rounding::none()`: all four radii zero. -/
def Rounding.none : Rounding := ⟨0, 0, 0, 0⟩

/-- The payload of a rectangle shape, as `epaint::RectShape`. -/
structure RectShape where
  rect : Rect
  rounding : Rounding
  fill : Color32
  stroke : Stroke
deriving DecidableEq

/-- Drawable primitive, as the `epaint::Shape` variants used by this element:
a rectangle-with-rounding and a line segment. -/
inductive Shape where
  | Rect (r : RectShape)
  | LineSegment (points : Pos2 × Pos2) (stroke : Stroke)
deriving DecidableEq

/-- `Shape::line_segment(points, stroke)` constructor function. -/
def Shape.line_segment (points : Pos2 × Pos2) (stroke : Stroke) : Shape :=
  Shape.LineSegment points stroke

/-- Whether a primitive is the rectangle variant. -/
def Shape.isRect : Shape → Bool
  | Shape.Rect _ => true
  | _ => false

/-- Whether a primitive is the line-segment variant. -/
def Shape.isLineSegment : Shape → Bool
  | Shape.LineSegment _ _ => true
  | _ => false

/-- Modelled from the spec: the data-to-screen coordinate transform
(`plot::ScreenTransform`, external collaborator). Per the spec it provides
(a) a mapping from a pair of data-space corner points to a screen rectangle,
(b) a mapping from a data-space point to a screen point, and
(c) the current data-units-per-screen-pixel scale vector
(`dvalue_dpos`, component 1 being the value axis). -/
structure ScreenTransform where
  position_from_point : PlotPoint → Pos2
  rect_from_values : PlotPoint → PlotPoint → Rect
  dvalue_dpos : ℚ × ℚ

/-- Orientation flag of a rect element, as `items::Orientation` (named apart from the Mathlib declaration of the same name). -/
inductive ItemOrientation where
  | Horizontal
  | Vertical
deriving DecidableEq

/-- One OHLCV data point, as `Candle`. -/
structure Candle where
  «open» : ℚ
  high : ℚ
  low : ℚ
  close : ℚ
  volume : ℚ
deriving DecidableEq

/-- `Candle::new(open, high, low, close, volume)`: stores the five fields verbatim. -/
def Candle.new («open» high low close volume : ℚ) : Candle :=
  ⟨«open», high, low, close, volume⟩

/-- A positioned candle plus visual style, as `CandleElem`. -/
structure CandleElem where
  x : ℚ
  candle : Candle
  candle_width : ℚ
  whisker_width : ℚ
  stroke : Stroke
  fill : Color32
deriving DecidableEq

/-- `CandleElem::new(candle)`: x = 0, default widths 0.25 and 0.15, transparent style. -/
def CandleElem.new (candle : Candle) : CandleElem :=
  ⟨0, candle, 1/4, 3/20, Stroke.new 1 Color32.TRANSPARENT, Color32.TRANSPARENT⟩

/-- `CandleElem::stroke(stroke)`: replace the stroke field (primed name: the Lean
field projection already takes the source method's name). -/
def CandleElem.stroke' (e : CandleElem) (stroke : Stroke) : CandleElem :=
  { e with stroke := stroke }

/-- `CandleElem::fill(color)`: replace the fill field. -/
def CandleElem.fill' (e : CandleElem) (color : Color32) : CandleElem :=
  { e with fill := color }

/-- `CandleElem::candle_width(width)`: replace the body width field. -/
def CandleElem.candle_width' (e : CandleElem) (width : ℚ) : CandleElem :=
  { e with candle_width := width }

/-- `CandleElem::whisker_width(width)`: replace the whisker width field. -/
def CandleElem.whisker_width' (e : CandleElem) (width : ℚ) : CandleElem :=
  { e with whisker_width := width }

/-- `RectElement::orientation` for `CandleElem`: fixed to vertical. -/
def CandleElem.orientation (_ : CandleElem) : ItemOrientation := ItemOrientation.Vertical

/-- Modelled from the spec: `RectElement::point_at(position, value)`, the trait
default helper (its body lives in `items/mod.rs`, outside this file's source).
Per the spec every candle point shares the element's x with the value on the
y axis, i.e. a vertical element pairs `(position, value)`; a horizontal one
would swap the two. -/
def CandleElem.point_at (e : CandleElem) (position value : ℚ) : PlotPoint :=
  match e.orientation with
  | ItemOrientation.Vertical => ⟨position, value⟩
  | ItemOrientation.Horizontal => ⟨value, position⟩

/-- `RectElement::name` for `CandleElem`: the empty string. -/
def CandleElem.name (_ : CandleElem) : String := ""

/-- `CandleElem::bounds_min`: `point_at(x - candle_width.max(whisker_width)/2, low)`. -/
def CandleElem.bounds_min (e : CandleElem) : PlotPoint :=
  let x := e.x - max e.candle_width e.whisker_width / 2
  let value := e.candle.low
  e.point_at x value

/-- `CandleElem::bounds_max`: `point_at(x + candle_width.max(whisker_width)/2, high)`. -/
def CandleElem.bounds_max (e : CandleElem) : PlotPoint :=
  let x := e.x + max e.candle_width e.whisker_width / 2
  let value := e.candle.high
  e.point_at x value

/-- `CandleElem::values_with_ruler`: the five points open, high, low, close, volume,
each at the element's x. -/
def CandleElem.values_with_ruler (e : CandleElem) : List PlotPoint :=
  let o := e.point_at e.x e.candle.«open»
  let h := e.point_at e.x e.candle.high
  let l := e.point_at e.x e.candle.low
  let c := e.point_at e.x e.candle.close
  let v := e.point_at e.x e.candle.volume
  [o, h, l, c, v]

/-- `CandleElem::corner_value`: the point `(x, high)`. -/
def CandleElem.corner_value (e : CandleElem) : PlotPoint :=
  e.point_at e.x e.candle.high

/-- The decimal count of `default_values_format`, the source expression
`((-scale[1].abs().log10()).ceil().at_least(0.0) as usize).at_most(6)`
over exact rationals. For `s ≠ 0`, `⌈-log10 |s|⌉ = -⌊log10 |s|⌋ = -(Int.log 10 |s|)`
(proved below in `yDecimals_eq_clamp_ceil_neg_log`); `at_least 0` is `max · 0`,
the `usize` cast is `Int.toNat`, and `at_most 6` is `min · 6`. At `s = 0` the
source's `log10` is `-∞`, so the negated ceiling saturates the clamped cast at 6. -/
def yDecimals (scale : ℚ) : ℕ :=
  if scale = 0 then 6
  else min (max (-(Int.log 10 |scale|)) 0).toNat 6

/-- Fixed-point decimal rendering of a rational with `d` decimals, mirroring
Rust's `{:.d$}` float formatting (external standard library behavior):
round to nearest with ties to even, keep trailing zeros, no decimal point
when `d = 0`. Working on the reduced numerator and denominator,
`|v| * 10^d = scaled / den` exactly, its floor is the truncating natural
division and the fractional part compares to one half as `2 * r` to `den`. -/
def formatFixed (v : ℚ) (d : ℕ) : String :=
  let sign := if v.num < 0 then "-" else ""
  let scaled : ℕ := v.num.natAbs * 10 ^ d
  let den : ℕ := v.den
  let fl : ℕ := scaled / den
  let r : ℕ := scaled % den
  let n : ℕ :=
    if 2 * r < den then fl
    else if den < 2 * r then fl + 1
    else if fl % 2 = 0 then fl else fl + 1
  if d = 0 then sign ++ toString n
  else
    let ip := n / 10 ^ d
    let fp := n % 10 ^ d
    let fpStr := toString fp
    let pad := String.mk (List.replicate (d - fpStr.length) '0')
    sign ++ toString ip ++ "." ++ pad ++ fpStr

/-- `RectElement::default_values_format` for `CandleElem`: the five lines
`Open/High/Low/Close/Volume`, each preceded by a newline, with the adaptive
decimal count computed from the value-axis component of `dvalue_dpos`. -/
def CandleElem.default_values_format (e : CandleElem) (transform : ScreenTransform) : String :=
  let scale := transform.dvalue_dpos
  let y_decimals := yDecimals scale.2
  "\nOpen = " ++ formatFixed e.candle.«open» y_decimals ++
  "\nHigh = " ++ formatFixed e.candle.high y_decimals ++
  "\nLow = " ++ formatFixed e.candle.low y_decimals ++
  "\nClose = " ++ formatFixed e.candle.close y_decimals ++
  "\nVolume = " ++ formatFixed e.candle.volume y_decimals

/-- Modelled from the spec: the type of the external highlight helper
`highlighted_color` — given a stroke and a fill it returns an emphasized
(stroke, fill) pair. Its body lives outside this file's source, so
`add_shapes` takes it as a parameter. -/
abbrev HighlightColor := Stroke → Color32 → Stroke × Color32

/-- `CandleElem::add_shapes(transform, highlighted, shapes)`: select the
(stroke, fill) pair, push the body rectangle, then push the whisker line.
The Rust `&mut Vec` push is embedded as returning the extended list. -/
def CandleElem.add_shapes (highlighted_color : HighlightColor) (e : CandleElem)
    (transform : ScreenTransform) (highlighted : Bool) (shapes : List Shape) : List Shape :=
  let sf := if highlighted then highlighted_color e.stroke e.fill else (e.stroke, e.fill)
  let stroke := sf.1
  let fill := sf.2
  let rect := transform.rect_from_values
    (e.point_at (e.x - e.candle_width / 2) e.candle.«open»)
    (e.point_at (e.x + e.candle_width / 2) e.candle.close)
  let rectShape := Shape.Rect ⟨rect, Rounding.none, fill, stroke⟩
  let line_between := fun v1 v2 =>
    Shape.line_segment (transform.position_from_point v1, transform.position_from_point v2) stroke
  let whisker := line_between (e.point_at e.x e.candle.low) (e.point_at e.x e.candle.high)
  shapes ++ [rectShape, whisker]

/-- Modelled from the spec: the parent plot context (`ChartPlot`, external).
Its `element_formatter` is an optional caller-supplied callback
`(element, parent) -> text`; the closure type mentions the context itself,
so the embedding keeps an abstract formatter token type `F` applied through
an explicit application function at the call site. -/
structure ChartPlot (F : Type) where
  element_formatter : Option F

/-- Modelled from the spec: the type of the shared ruler-drawing routine
(the free function `add_rulers_and_text` of `items/mod.rs`, external):
given an element, the plot configuration (abstract type `P`) and optional
text, it appends crosshair and label primitives. -/
abbrev RulerRoutine (P : Type) := CandleElem → P → Option String → List Shape → List Shape

/-- `CandleElem::add_rulers_and_text(parent, plot, shapes)`: obtain optional
text by mapping the parent's formatter over the element and parent, then
delegate to the shared ruler-drawing routine. -/
def CandleElem.add_rulers_and_text {F P : Type} (ruler : RulerRoutine P)
    (app : F → CandleElem → ChartPlot F → String) (e : CandleElem)
    (parent : ChartPlot F) (plot : P) (shapes : List Shape) : List Shape :=
  let text : Option String := parent.element_formatter.map fun fmt => app fmt e parent
  ruler e plot text shapes

/-- The spec's running example: `Candle::new(10, 12, 9, 11, 500)`. -/
def exampleCandle : Candle := Candle.new 10 12 9 11 500

/-- The spec's running example element: the example candle with
`candle_width(0.4)` through the builder, positioned at x = 3. -/
def exampleElem : CandleElem :=
  { (CandleElem.new exampleCandle).candle_width' (2/5) with x := 3 }

/-- A concrete screen transform whose point mapping is the identity embedding,
used to instantiate theorems at concrete inputs. -/
def idTransform (scale : ℚ × ℚ) : ScreenTransform :=
  ⟨fun p => ⟨p.x, p.y⟩, fun a b => ⟨⟨a.x, a.y⟩, ⟨b.x, b.y⟩⟩, scale⟩

/-- An integer log is pinned down by the two power bounds around it. -/
lemma intLog_eq_of_zpow_bounds {b : ℕ} (hb : 1 < b) {r : ℚ} (hr : 0 < r) {z : ℤ}
    (h1 : (b : ℚ) ^ z ≤ r) (h2 : r < (b : ℚ) ^ (z + 1)) : Int.log b r = z := by
  have lo := (Int.zpow_le_iff_le_log hb hr).mp h1
  have hi := (Int.lt_zpow_iff_log_lt hb hr).mp h2
  omega

/-- Casting a positive rational to the reals preserves its base-10 integer log. -/
lemma intLog_real_ratCast {q : ℚ} (hq : 0 < q) : Int.log 10 ((q : ℝ)) = Int.log 10 q := by
  have hq' : (0 : ℝ) < (q : ℝ) := by exact_mod_cast hq
  have hbase : ((10 : ℕ) : ℝ) = (((10 : ℚ) : ℚ) : ℝ) := by norm_num
  have h1 : ((10 : ℕ) : ℝ) ^ (Int.log 10 q) ≤ (q : ℝ) := by
    rw [hbase, ← Rat.cast_zpow]
    exact Rat.cast_le.mpr (Int.zpow_log_le_self (b := 10) (by norm_num) hq)
  have h2 : (q : ℝ) < ((10 : ℕ) : ℝ) ^ (Int.log 10 q + 1) := by
    rw [hbase, ← Rat.cast_zpow]
    exact Rat.cast_lt.mpr (Int.lt_zpow_succ_log_self (b := 10) (by norm_num) q)
  have lo := (Int.zpow_le_iff_le_log (b := 10) (by norm_num) hq').mp h1
  have hi := (Int.lt_zpow_iff_log_lt (b := 10) (by norm_num) hq').mp h2
  omega

/-- The decimal count is exactly the source formula `clamp(ceil(-log10 |scale|), 0, 6)`,
read over the reals, whenever the scale is nonzero. -/
lemma yDecimals_eq_clamp_ceil_neg_log (s : ℚ) (hs : s ≠ 0) :
    (yDecimals s : ℤ) = min (max ⌈-Real.logb 10 |(s : ℝ)|⌉ 0) 6 := by
  have habs : (0 : ℚ) < |s| := abs_pos.mpr hs
  have hfloor : ⌊Real.logb 10 |(s : ℝ)|⌋ = Int.log 10 |s| := by
    have hcast : |(s : ℝ)| = ((|s| : ℚ) : ℝ) := by push_cast; rfl
    rw [hcast, show (10 : ℝ) = ((10 : ℕ) : ℝ) by norm_num,
      Real.floor_logb_natCast (by positivity), intLog_real_ratCast habs]
  have hceil : ⌈-Real.logb 10 |(s : ℝ)|⌉ = -(Int.log 10 |s|) := by
    rw [Int.ceil_neg, hfloor]
  rw [yDecimals, if_neg hs, hceil]
  omega

/-- Computation of the base-10 integer log of the example scale 0.05. -/
lemma intLog_inv_twenty : Int.log 10 ((1 : ℚ)/20) = -2 := by
  apply intLog_eq_of_zpow_bounds (by norm_num) (by norm_num)
  · norm_num
  · norm_num

/-- The decimal count at the example scale 0.05 is two. -/
lemma yDecimals_inv_twenty : yDecimals (1/20) = 2 := by
  rw [yDecimals, if_neg (by norm_num), abs_of_pos (by norm_num), intLog_inv_twenty]
  rfl

/-- Evaluation of `default_values_format` at the spec's example candle and a
transform with value-axis scale 0.05: decimals are two and the output is the
five lines, each preceded by a newline character. -/
lemma example_format_eval : exampleElem.default_values_format (idTransform (1, 1/20)) =
    "\nOpen = 10.00\nHigh = 12.00\nLow = 9.00\nClose = 11.00\nVolume = 500.00" := by
  rw [CandleElem.default_values_format]
  show "\nOpen = " ++ formatFixed 10 (yDecimals (1/20)) ++ "\nHigh = " ++
      formatFixed 12 (yDecimals (1/20)) ++ "\nLow = " ++ formatFixed 9 (yDecimals (1/20)) ++
      "\nClose = " ++ formatFixed 11 (yDecimals (1/20)) ++ "\nVolume = " ++
      formatFixed 500 (yDecimals (1/20)) = _
  rw [yDecimals_inv_twenty]
  rfl

/-- C1: for every `CandleElem`, `bounds_min` is the point
`(x - max(candle_width, whisker_width)/2, low)` and `bounds_max` is
`(x + max(candle_width, whisker_width)/2, high)`; consequently
`bounds_max.x - bounds_min.x = max(candle_width, whisker_width)`,
`bounds_min.y = low` and `bounds_max.y = high`; in particular the example
candle (10, 12, 9, 11, 500) at x = 3 with body width 0.4 and default whisker
width 0.15 has `bounds_min = (2.8, 9)` and `bounds_max = (3.2, 12)`. -/
theorem candle_bounds_spec :
    (∀ e : CandleElem,
      e.bounds_min = ⟨e.x - max e.candle_width e.whisker_width / 2, e.candle.low⟩ ∧
      e.bounds_max = ⟨e.x + max e.candle_width e.whisker_width / 2, e.candle.high⟩ ∧
      e.bounds_max.x - e.bounds_min.x = max e.candle_width e.whisker_width ∧
      e.bounds_min.y = e.candle.low ∧ e.bounds_max.y = e.candle.high) ∧
    exampleElem.bounds_min = ⟨2.8, 9⟩ ∧ exampleElem.bounds_max = ⟨3.2, 12⟩ := by
  have hmain : ∀ e : CandleElem,
      e.bounds_min = ⟨e.x - max e.candle_width e.whisker_width / 2, e.candle.low⟩ ∧
      e.bounds_max = ⟨e.x + max e.candle_width e.whisker_width / 2, e.candle.high⟩ ∧
      e.bounds_max.x - e.bounds_min.x = max e.candle_width e.whisker_width ∧
      e.bounds_min.y = e.candle.low ∧ e.bounds_max.y = e.candle.high := by
    intro e
    refine ⟨rfl, rfl, ?_, rfl, rfl⟩
    show e.x + max e.candle_width e.whisker_width / 2 -
        (e.x - max e.candle_width e.whisker_width / 2) = max e.candle_width e.whisker_width
    ring
  refine ⟨hmain, ?_, ?_⟩
  · rw [(hmain exampleElem).1]
    show PlotPoint.mk (3 - max (2/5 : ℚ) (3/20) / 2) 9 = ⟨2.8, 9⟩
    rw [max_eq_left (by norm_num : (3/20 : ℚ) ≤ 2/5)]
    norm_num [PlotPoint.mk.injEq]
  · rw [(hmain exampleElem).2.1]
    show PlotPoint.mk (3 + max (2/5 : ℚ) (3/20) / 2) 12 = ⟨3.2, 12⟩
    rw [max_eq_left (by norm_num : (3/20 : ℚ) ≤ 2/5)]
    norm_num [PlotPoint.mk.injEq]

/-- C2: for every element, transform, highlight flag and initial list,
`add_shapes` appends exactly two primitives — a rectangle then a line
segment — leaving the pre-existing entries unchanged and in place. -/
theorem add_shapes_two_primitives (hc : HighlightColor) (e : CandleElem)
    (t : ScreenTransform) (highlighted : Bool) (shapes : List Shape) :
    ∃ r w : Shape, e.add_shapes hc t highlighted shapes = shapes ++ [r, w] ∧
      r.isRect = true ∧ w.isLineSegment = true ∧
      (e.add_shapes hc t highlighted shapes).length = shapes.length + 2 := by
  refine ⟨_, _, rfl, rfl, rfl, ?_⟩
  simp [CandleElem.add_shapes]

/-- C3: the rectangle primitive is built from the data-space corners
`(x - candle_width/2, open)` and `(x + candle_width/2, close)` mapped through
the transform with no corner rounding, and the line segment is built from
`(x, low)` and `(x, high)` mapped through the transform, both using the same
(possibly highlighted) stroke. -/
theorem add_shapes_geometry (hc : HighlightColor) (e : CandleElem) (t : ScreenTransform)
    (highlighted : Bool) (shapes : List Shape) :
    e.add_shapes hc t highlighted shapes = shapes ++
      [Shape.Rect ⟨t.rect_from_values ⟨e.x - e.candle_width / 2, e.candle.«open»⟩
          ⟨e.x + e.candle_width / 2, e.candle.close⟩, Rounding.none,
          (if highlighted then hc e.stroke e.fill else (e.stroke, e.fill)).2,
          (if highlighted then hc e.stroke e.fill else (e.stroke, e.fill)).1⟩,
       Shape.LineSegment (t.position_from_point ⟨e.x, e.candle.low⟩,
          t.position_from_point ⟨e.x, e.candle.high⟩)
          (if highlighted then hc e.stroke e.fill else (e.stroke, e.fill)).1] := rfl

/-- C4 counterexample: at the spec's own example (candle (10, 12, 9, 11, 500),
value-axis scale 0.05, decimals 2) the string returned by
`default_values_format` does not equal the block starting with "Open = ...":
the source's format string places a newline before the first line as well. -/
theorem default_values_format_not_as_claimed :
    exampleElem.default_values_format (idTransform (1, 1/20)) ≠
      "Open = 10.00\nHigh = 12.00\nLow = 9.00\nClose = 11.00\nVolume = 500.00" := by
  rw [example_format_eval]
  decide

/-- C4 (amended): `default_values_format` returns the text block
`"\nOpen = …\nHigh = …\nLow = …\nClose = …\nVolume = …"` — each of the five
lines preceded by a newline, including the first — where each number is
formatted with the decimal count `clamp(ceil(-log10 |scale|), 0, 6)`, `scale`
being the value-axis component of the data-units-per-screen-pixel vector;
at scale 0.05 the decimal count is 2 and the example candle renders as
`"\nOpen = 10.00\n..."`. -/
theorem default_values_format_spec :
    (∀ (e : CandleElem) (t : ScreenTransform),
      e.default_values_format t =
        "\nOpen = " ++ formatFixed e.candle.«open» (yDecimals t.dvalue_dpos.2) ++
        "\nHigh = " ++ formatFixed e.candle.high (yDecimals t.dvalue_dpos.2) ++
        "\nLow = " ++ formatFixed e.candle.low (yDecimals t.dvalue_dpos.2) ++
        "\nClose = " ++ formatFixed e.candle.close (yDecimals t.dvalue_dpos.2) ++
        "\nVolume = " ++ formatFixed e.candle.volume (yDecimals t.dvalue_dpos.2)) ∧
    (∀ s : ℚ, s ≠ 0 → (yDecimals s : ℤ) = min (max ⌈-Real.logb 10 |(s : ℝ)|⌉ 0) 6) ∧
    yDecimals (1/20) = 2 ∧
    exampleElem.default_values_format (idTransform (1, 1/20)) =
      "\nOpen = 10.00\nHigh = 12.00\nLow = 9.00\nClose = 11.00\nVolume = 500.00" :=
  ⟨fun _ _ => rfl, yDecimals_eq_clamp_ceil_neg_log, yDecimals_inv_twenty, example_format_eval⟩

/-- Witness for C4 (amended) at the concrete scale 0.05. -/
theorem default_values_format_spec_witness :
    ((1 : ℚ)/20 ≠ 0) ∧
    (yDecimals (1/20) : ℤ) = min (max ⌈-Real.logb 10 |((((1 : ℚ)/20) : ℚ) : ℝ)|⌉ 0) 6 :=
  ⟨by norm_num, default_values_format_spec.2.1 (1/20) (by norm_num)⟩

/-- C5: the decimal count used by `default_values_format` lies in [0, 6] and is
monotonically non-increasing in the magnitude of the value-axis scale. -/
theorem y_decimals_bounded_antitone :
    (∀ t : ScreenTransform,
      0 ≤ yDecimals t.dvalue_dpos.2 ∧ yDecimals t.dvalue_dpos.2 ≤ 6) ∧
    (∀ t1 t2 : ScreenTransform, |t1.dvalue_dpos.2| ≤ |t2.dvalue_dpos.2| →
      yDecimals t2.dvalue_dpos.2 ≤ yDecimals t1.dvalue_dpos.2) := by
  constructor
  · intro t
    refine ⟨Nat.zero_le _, ?_⟩
    rw [yDecimals]
    split
    · exact le_refl 6
    · exact min_le_right _ _
  · intro t1 t2 h
    set s1 := t1.dvalue_dpos.2 with hs1def
    set s2 := t2.dvalue_dpos.2 with hs2def
    by_cases h2 : s2 = 0
    · have h1 : s1 = 0 := by
        rw [h2, abs_zero] at h
        exact abs_nonpos_iff.mp h
      rw [yDecimals, yDecimals, if_pos h1, if_pos h2]
    · by_cases h1 : s1 = 0
      · rw [yDecimals, yDecimals, if_pos h1, if_neg h2]
        exact min_le_right _ _
      · rw [yDecimals, yDecimals, if_neg h1, if_neg h2]
        have habs1 : (0 : ℚ) < |s1| := abs_pos.mpr h1
        have hlog : Int.log 10 |s1| ≤ Int.log 10 |s2| := Int.log_mono_right habs1 h
        have hneg : -(Int.log 10 |s2|) ≤ -(Int.log 10 |s1|) := by omega
        have hmax : max (-(Int.log 10 |s2|)) 0 ≤ max (-(Int.log 10 |s1|)) 0 :=
          max_le_max hneg le_rfl
        exact min_le_min (Int.toNat_le_toNat hmax) le_rfl

/-- Witness for C5 at the concrete scale magnitudes 0.05 ≤ 3. -/
theorem y_decimals_bounded_antitone_witness :
    |(idTransform (1, 1/20)).dvalue_dpos.2| ≤ |(idTransform (1, 3)).dvalue_dpos.2| ∧
    yDecimals (idTransform (1, 3)).dvalue_dpos.2 ≤
      yDecimals (idTransform (1, 1/20)).dvalue_dpos.2 :=
  ⟨by norm_num [idTransform, abs_of_pos (show (0 : ℚ) < 1/20 by norm_num)],
    y_decimals_bounded_antitone.2 _ _
      (by norm_num [idTransform, abs_of_pos (show (0 : ℚ) < 1/20 by norm_num)])⟩

/-- C6: `values_with_ruler` returns exactly five points, all sharing the
element's x, whose y-values are open, high, low, close, volume in that order;
at the example candle positioned at x = 3 it returns
[(3,10), (3,12), (3,9), (3,11), (3,500)]. -/
theorem values_with_ruler_spec :
    (∀ e : CandleElem,
      e.values_with_ruler = [⟨e.x, e.candle.«open»⟩, ⟨e.x, e.candle.high⟩,
        ⟨e.x, e.candle.low⟩, ⟨e.x, e.candle.close⟩, ⟨e.x, e.candle.volume⟩] ∧
      e.values_with_ruler.length = 5 ∧
      ∀ p ∈ e.values_with_ruler, p.x = e.x) ∧
    exampleElem.values_with_ruler =
      [⟨3, 10⟩, ⟨3, 12⟩, ⟨3, 9⟩, ⟨3, 11⟩, ⟨3, 500⟩] := by
  refine ⟨fun e => ⟨rfl, rfl, ?_⟩, rfl⟩
  intro p hp
  simp only [CandleElem.values_with_ruler, CandleElem.point_at, CandleElem.orientation,
    List.mem_cons, List.mem_singleton, List.not_mem_nil, or_false] at hp
  rcases hp with rfl | rfl | rfl | rfl | rfl <;> rfl

/-- C7: `add_shapes` does not mutate the element (in this pure embedding it
only returns an extended list, the element being passed by shared reference
in the source): with `highlighted = true` the (stroke, fill) pair fed into
both primitives is the emphasized pair from the highlight helper, with
`highlighted = false` it is the element's own pair; each call appends a
suffix determined by its own arguments alone, so two calls with opposite
flags on the same element do not interfere, in either order. -/
theorem add_shapes_highlight_pure (hc : HighlightColor) (e : CandleElem)
    (t : ScreenTransform) (shapes other : List Shape) :
    (∀ highlighted, e.add_shapes hc t highlighted shapes =
      shapes ++ e.add_shapes hc t highlighted []) ∧
    (∃ r w, e.add_shapes hc t true [] =
      [Shape.Rect ⟨r, Rounding.none, (hc e.stroke e.fill).2, (hc e.stroke e.fill).1⟩,
       Shape.LineSegment w (hc e.stroke e.fill).1]) ∧
    (∃ r w, e.add_shapes hc t false [] =
      [Shape.Rect ⟨r, Rounding.none, e.fill, e.stroke⟩, Shape.LineSegment w e.stroke]) ∧
    (e.add_shapes hc t false (e.add_shapes hc t true other) =
      e.add_shapes hc t true other ++ e.add_shapes hc t false []) ∧
    (e.add_shapes hc t true (e.add_shapes hc t false other) =
      e.add_shapes hc t false other ++ e.add_shapes hc t true []) := by
  refine ⟨fun highlighted => by simp [CandleElem.add_shapes], ⟨_, _, rfl⟩, ⟨_, _, rfl⟩,
    by simp [CandleElem.add_shapes], by simp [CandleElem.add_shapes]⟩

/-- C8: each configuration method replaces exactly its own field and keeps
every other field unchanged, for every argument value — in particular the
width setters accept any rational, zero and negative widths included,
without validation. -/
theorem config_methods_replace_one_field (e : CandleElem) (st : Stroke) (c : Color32)
    (w w2 : ℚ) :
    ((e.stroke' st).stroke = st ∧ (e.stroke' st).x = e.x ∧
      (e.stroke' st).candle = e.candle ∧ (e.stroke' st).candle_width = e.candle_width ∧
      (e.stroke' st).whisker_width = e.whisker_width ∧ (e.stroke' st).fill = e.fill) ∧
    ((e.fill' c).fill = c ∧ (e.fill' c).x = e.x ∧ (e.fill' c).candle = e.candle ∧
      (e.fill' c).candle_width = e.candle_width ∧
      (e.fill' c).whisker_width = e.whisker_width ∧ (e.fill' c).stroke = e.stroke) ∧
    ((e.candle_width' w).candle_width = w ∧ (e.candle_width' w).x = e.x ∧
      (e.candle_width' w).candle = e.candle ∧
      (e.candle_width' w).whisker_width = e.whisker_width ∧
      (e.candle_width' w).stroke = e.stroke ∧ (e.candle_width' w).fill = e.fill) ∧
    ((e.whisker_width' w2).whisker_width = w2 ∧ (e.whisker_width' w2).x = e.x ∧
      (e.whisker_width' w2).candle = e.candle ∧
      (e.whisker_width' w2).candle_width = e.candle_width ∧
      (e.whisker_width' w2).stroke = e.stroke ∧ (e.whisker_width' w2).fill = e.fill) :=
  ⟨⟨rfl, rfl, rfl, rfl, rfl, rfl⟩, ⟨rfl, rfl, rfl, rfl, rfl, rfl⟩,
   ⟨rfl, rfl, rfl, rfl, rfl, rfl⟩, ⟨rfl, rfl, rfl, rfl, rfl, rfl⟩⟩

/-- C9: `add_rulers_and_text` passes text to the shared ruler-drawing routine
exactly when the parent holds a formatter: a present formatter is applied to
the element and the parent and its result is the text; an absent formatter
yields no text, with no error path. -/
theorem add_rulers_and_text_formatter {F P : Type} (ruler : RulerRoutine P)
    (app : F → CandleElem → ChartPlot F → String) (e : CandleElem)
    (parent : ChartPlot F) (plot : P) (shapes : List Shape) :
    (∀ fmt, parent.element_formatter = some fmt →
      CandleElem.add_rulers_and_text ruler app e parent plot shapes =
        ruler e plot (some (app fmt e parent)) shapes) ∧
    (parent.element_formatter = none →
      CandleElem.add_rulers_and_text ruler app e parent plot shapes =
        ruler e plot none shapes) := by
  constructor
  · intro fmt hf
    simp [CandleElem.add_rulers_and_text, hf]
  · intro hf
    simp [CandleElem.add_rulers_and_text, hf]

/-- Witness for C9: a unit formatter token present in the parent produces
the formatted text, here through a ruler routine returning its input list. -/
theorem add_rulers_and_text_formatter_witness :
    (ChartPlot.mk (some ()) : ChartPlot Unit).element_formatter = some () ∧
    CandleElem.add_rulers_and_text (fun _ _ _ shapes => shapes) (fun _ _ _ => "label")
      (CandleElem.new exampleCandle) (ChartPlot.mk (some ())) () [] = [] :=
  ⟨rfl, (add_rulers_and_text_formatter (P := Unit) (fun _ _ _ shapes => shapes)
    (fun _ _ _ => "label") (CandleElem.new exampleCandle)
    (ChartPlot.mk (some ())) () []).1 () rfl⟩

/-- C10: the primitives emitted by `add_shapes` do not depend on
`whisker_width`: two elements equal in every other field produce identical
output for the same transform, highlight flag and initial list. -/
theorem add_shapes_ignores_whisker_width (hc : HighlightColor) (t : ScreenTransform)
    (highlighted : Bool) (shapes : List Shape) (e1 e2 : CandleElem)
    (hx : e1.x = e2.x) (hcandle : e1.candle = e2.candle)
    (hcw : e1.candle_width = e2.candle_width) (hst : e1.stroke = e2.stroke)
    (hf : e1.fill = e2.fill) :
    e1.add_shapes hc t highlighted shapes = e2.add_shapes hc t highlighted shapes := by
  obtain ⟨x1, c1, cw1, ww1, s1, f1⟩ := e1
  obtain ⟨x2, c2, cw2, ww2, s2, f2⟩ := e2
  simp only [] at hx hcandle hcw hst hf
  subst hx hcandle hcw hst hf
  rfl

/-- Witness for C10: the example element and the same element with whisker
width reset to 7 emit identical primitives. -/
theorem add_shapes_ignores_whisker_width_witness :
    exampleElem.x = (exampleElem.whisker_width' 7).x ∧
    exampleElem.candle = (exampleElem.whisker_width' 7).candle ∧
    exampleElem.candle_width = (exampleElem.whisker_width' 7).candle_width ∧
    exampleElem.stroke = (exampleElem.whisker_width' 7).stroke ∧
    exampleElem.fill = (exampleElem.whisker_width' 7).fill ∧
    exampleElem.add_shapes (fun s f => (s, f)) (idTransform (1, 1)) true [] =
      (exampleElem.whisker_width' 7).add_shapes (fun s f => (s, f))
        (idTransform (1, 1)) true [] :=
  ⟨rfl, rfl, rfl, rfl, rfl,
    add_shapes_ignores_whisker_width (fun s f => (s, f)) (idTransform (1, 1)) true []
      exampleElem (exampleElem.whisker_width' 7) rfl rfl rfl rfl rfl⟩

/-- Witness for C6: the head point (3, 10) of the example element's ruler
values indeed carries the element's x coordinate. -/
theorem values_with_ruler_spec_witness :
    (⟨3, 10⟩ : PlotPoint) ∈ exampleElem.values_with_ruler ∧
    (⟨3, 10⟩ : PlotPoint).x = exampleElem.x :=
  ⟨List.mem_cons_self _ _,
    (values_with_ruler_spec.1 exampleElem).2.2 ⟨3, 10⟩ (List.mem_cons_self _ _)⟩
